import Mathlib

/-!
Shallow embedding of the SB16 sound-card driver (src/sb16_driver.c, with
buffer constants taken from src/user_level_program.c).  Hardware port I/O is
modelled by recording, per initialization attempt, the trace of bytes written
to the DMA controller ports and to the DSP write port, and by abstracting the
stream of bytes that successive dsp_read calls return as a function from the
call index to the byte read.  The header file sb16.h of the repository is not
present under src/; every constant it defines is introduced below with a
comment saying where its value comes from.
-/

/- ------------------------------------------------------------------ -/
/- Constants (from the missing sb16.h header and user_level_program.c) -/
/- ------------------------------------------------------------------ -/

/-- From user_level_program.c: BUF_SIZE = 65536 / 2 bytes, the size of one
half of the double buffer (one row of buffer[BUF_DIM][BUF_SIZE]). -/
def BUF_SIZE : Nat := 32768

/-- From user_level_program.c: BUF_DIM = 2, the number of buffer halves. -/
def BUF_DIM : Nat := 2

/-- Forced by usage in sb16_driver.c lines 89 and 160 and by the spec
(mod 65536, a busy wait of about 65536 cycles). -/
def TWOTO16 : Nat := 65536

/-- Forced by usage in sb16_driver.c lines 80 and 92: compared with the
bits-per-sample field and used as a shift amount of 16. -/
def C16BITS : Nat := 16

/-- Forced by the spec: the required channel count is 2. -/
def NCHANNELS : Nat := 2

/-- Four bytes, the length of the container tag copied at line 63. -/
def FOUR_B : Nat := 4

/-- Modelled from the spec: the known container-tag constant of the missing
sb16.h, in canonical big-endian form (the bytes R, I, F, F read as one
big-endian 32-bit word, 0x52494646).  Every theorem below is stated relative
to this constant, not to its numeric value. -/
def WAV_MAGIC : Nat := 0x52494646

/-- Modelled from the spec: the designated ready byte of the reset handshake,
defined in the missing sb16.h; its numeric value is immaterial to every
property proved here. -/
def SUCCESS_VAL : Nat := 0xAA

/-- Modelled from the spec: the output-rate command opcode of the missing
sb16.h; its numeric value is immaterial to every property proved here. -/
def DSP_OUT_RATE_CMD : Nat := 0x41

/-- Modelled from the spec: the output/playback command opcode of the missing
sb16.h; value immaterial to every property proved here. -/
def DSP_BCOMMAND : Nat := 0xB6

/-- Modelled from the spec: the mode byte (stereo, signed 16-bit) of the
missing sb16.h; value immaterial to every property proved here. -/
def DSP_BMODE : Nat := 0x30

/-- Modelled from the spec: the DMA stop mask byte of the missing sb16.h;
value immaterial to every property proved here. -/
def DMA_STOP_MASK : Nat := 0x05

/-- Modelled from the spec: the DMA autoinit mode byte of the missing
sb16.h; value immaterial to every property proved here. -/
def DMA_MODE : Nat := 0x59

/-- Modelled from the spec: the DMA start mask byte of the missing sb16.h;
value immaterial to every property proved here. -/
def DMA_START_MASK : Nat := 0x01

/- ------------------------------------------------------------------ -/
/- Byte helpers (sb16_driver.c lines 327-352)                          -/
/- ------------------------------------------------------------------ -/

/-- lo_byte (lines 327-334): stores the 16-bit word little-endian in a
two-byte array and returns byte 0, i.e. the low byte. -/
def lo_byte (word : Nat) : Nat := word % 256

/-- hi_byte (lines 345-352): stores the 16-bit word little-endian in a
two-byte array and returns byte 1, i.e. the high byte. -/
def hi_byte (word : Nat) : Nat := word / 256 % 256

/- ------------------------------------------------------------------ -/
/- Header validation (sb16_driver.c lines 62-86)                       -/
/- ------------------------------------------------------------------ -/

/-- The fields of the 44-byte WAV info block that sb16_init dereferences,
each recorded as the value the code reads at its fixed offset: the four raw
bytes of the container tag at WAV_MAGIC_LOC, and the little-endian 16-bit
fields at WAV_FORMAT_LOC, WAV_NCHANNELS_LOC, SAMPLE_RATE_LOC and
BPSAMPLE_LOC (the offsets themselves live in the missing sb16.h and are
absorbed into this structure). -/
structure Header where
  m0 : Nat
  m1 : Nat
  m2 : Nat
  m3 : Nat
  formatCode : Nat
  nChannels : Nat
  bitsPerSample : Nat
  sampleRate : Nat
deriving DecidableEq, Repr

/-- strrev applied to the 5-byte wav_check array (line 64): in-place reversal
of the C string, i.e. of the prefix that stops at the first zero byte. -/
def strrev (bs : List Nat) : List Nat :=
  (bs.takeWhile (fun b => b != 0)).reverse ++ bs.dropWhile (fun b => b != 0)

/-- Little-endian load of a 32-bit word from four bytes, the effect of
reading *((uint32_t*)wav_check) at line 67. -/
def leU32 : List Nat → Nat
  | [a, b, c, d] => a + 256 * b + 65536 * c + 16777216 * d
  | _ => 0

/-- Lines 63-67: memcpy the four tag bytes into the zero-initialized 5-byte
wav_check array, strrev it, and load the first four bytes as a 32-bit word. -/
def wavCheckVal (h : Header) : Nat :=
  leU32 ((strrev [h.m0, h.m1, h.m2, h.m3, 0]).take 4)

/-- The distinct error exits of sb16_init, one per printf-and-return site. -/
inductive InitError where
  | alreadyInUse
  | resetFailure
  | nullHeader
  | notWav
  | unsupportedFormat
  | notStereo16
deriving DecidableEq, Repr

/-- The header checks of sb16_init (lines 62-83), in source order: container
tag (un-reversed) against WAV_MAGIC, then format code against 1, then the
combined channel-count and bits-per-sample check, which shares one error. -/
def validateHeader (h : Header) : Option InitError :=
  if wavCheckVal h ≠ WAV_MAGIC then some .notWav
  else if h.formatCode ≠ 1 then some .unsupportedFormat
  else if h.nChannels ≠ NCHANNELS ∨ h.bitsPerSample ≠ C16BITS then some .notStereo16
  else none

/- ------------------------------------------------------------------ -/
/- Port traces for dma_init and dsp_init                               -/
/- ------------------------------------------------------------------ -/

/-- The hardware ports written by the driver, named after the port constants
of the missing sb16.h. -/
inductive Port where
  | dmaMask
  | dmaClrPtr
  | dmaMode
  | dmaBase
  | dmaCount
  | dmaPage
  | sbReset
deriving DecidableEq, Repr

/-- dma_init (lines 257-285): the exact sequence of outb writes, in source
order: stop mask, clear pointer, mode, offset low, offset high, length low,
length high, page, start mask. -/
def dma_init (buf_offset buf_length buf_page : Nat) : List (Port × Nat) :=
  [(Port.dmaMask, DMA_STOP_MASK),
   (Port.dmaClrPtr, 0),
   (Port.dmaMode, DMA_MODE),
   (Port.dmaBase, lo_byte buf_offset),
   (Port.dmaBase, hi_byte buf_offset),
   (Port.dmaCount, lo_byte buf_length),
   (Port.dmaCount, hi_byte buf_length),
   (Port.dmaPage, buf_page),
   (Port.dmaMask, DMA_START_MASK)]

/-- dsp_init (lines 222-244): the exact sequence of bytes pushed through
dsp_write, in source order: rate command, HIGH byte of the sample rate, LOW
byte of the sample rate (the code writes high before low, its comments
notwithstanding), block command, block mode, block length low, block length
high.  The write-ready busy wait inside dsp_write is abstracted away; only
the bytes and their order are observable here. -/
def dsp_init (sample_rate bcommand bmode block_length : Nat) : List Nat :=
  [DSP_OUT_RATE_CMD,
   hi_byte sample_rate,
   lo_byte sample_rate,
   bcommand,
   bmode,
   lo_byte block_length,
   hi_byte block_length]

/- ------------------------------------------------------------------ -/
/- Reset handshake (sb16_driver.c lines 152-172)                       -/
/- ------------------------------------------------------------------ -/

/-- The poll loop of sb16_reset, lines 166-168:
  i = WAITLOOP; while ((dsp_read() != SUCCESS_VAL) && i--);
reads is the stream of bytes returned by successive dsp_read calls.
Returns the value of i when the loop exits together with the number of
dsp_read calls performed.  When dsp_read returns the ready byte the loop
exits with i unchanged; otherwise the postfix decrement tests the old value
of i, so when i reaches 0 the test fails and i ends at -1 (modelled by the
fuel hitting 0, where we return -1 directly). -/
def resetPoll : Nat → (Nat → Nat) → Int × Nat
  | 0, reads =>
      if reads 0 = SUCCESS_VAL then (0, 1) else (-1, 1)
  | fuel + 1, reads =>
      if reads 0 = SUCCESS_VAL then (((fuel + 1 : Nat) : Int), 1)
      else
        ((resetPoll fuel (fun n => reads (n + 1))).1,
         (resetPoll fuel (fun n => reads (n + 1))).2 + 1)

/-- sb16_reset (lines 152-172): pulse the reset port, busy-wait TWOTO16
cycles, run the poll loop with budget W (the WAITLOOP constant of the
missing sb16.h, kept as a parameter because its value is unknown), then
execute the trailing statement i-- so the returned value is one less than
the loop exit value of i.  The result pairs that return value with the
number of dsp_read polls performed. -/
def sb16_reset (W : Nat) (reads : Nat → Nat) : Int × Nat :=
  ((resetPoll W reads).1 - 1, (resetPoll W reads).2)

/-- The two writes sb16_reset issues to the reset port (lines 157 and 163),
recorded for completeness. -/
def resetPortWrites : List (Port × Nat) :=
  [(Port.sbReset, 1), (Port.sbReset, 0)]

/- ------------------------------------------------------------------ -/
/- Device state and the top-level entry points                         -/
/- ------------------------------------------------------------------ -/

/-- The two global flags of sb16_driver.c (lines 9-11): in_use, the busy
flag, and int_flag, the playback-status toggle cell.  Both are C int32
values used as 0 or 1. -/
structure DevState where
  in_use : Nat
  int_flag : Nat
deriving DecidableEq, Repr

/-- The initial values of the globals: in_use = 0, int_flag = 1. -/
def initialState : DevState := ⟨0, 1⟩

/-- The baseline value of the playback-status cell int_flag. -/
def int_flag_baseline : Nat := 1

/-- The C cast (int32_t) applied to a 32-bit quantity: reduce mod 2^32 and
reinterpret the high bit as the sign. -/
def toInt32 (n : Nat) : Int :=
  if n % 4294967296 < 2147483648 then (n % 4294967296 : Int)
  else (n % 4294967296 : Int) - 4294967296

/-- Line 89: buf_offset = ((uint32_t)buffer >> 1) % TWOTO16, for a buffer
whose base address is A. -/
def dmaOffset (A : Nat) : Nat := A % 4294967296 / 2 % TWOTO16

/-- Line 92: buf_page = (uint32_t)buffer >> _16BITS, truncated to the
uint8_t variable buf_page. -/
def dmaPage (A : Nat) : Nat := A % 4294967296 / 65536 % 256

/-- Everything observable about one call to sb16_init: its return value,
the final values of the two global flags, the trace of DMA port writes, the
trace of bytes written to the DSP, whether any header byte was read, and
which error exit (if any) was taken. -/
structure InitOutcome where
  ret : Int
  st : DevState
  dmaWrites : List (Port × Nat)
  dspWrites : List Nat
  headerAccessed : Bool
  err : Option InitError
deriving DecidableEq, Repr

/-- sb16_init (lines 35-106).  Parameters: W is the WAITLOOP budget of the
missing sb16.h, reads the stream of bytes dsp_read returns, st the values of
the global flags on entry, A the address of the static double buffer, and
info_block the header pointer (none models a null pointer).  The source
order is kept: enable_irq (no modelled effect), busy check, reset with its
result compared against -1, null check, header checks, offset and page
computation, dma_init, dsp_init, flags set to 1, return of the buffer
address cast to int32. -/
def sb16_init (W : Nat) (reads : Nat → Nat) (st : DevState) (A : Nat)
    (info_block : Option Header) : InitOutcome :=
  if st.in_use ≠ 0 then
    ⟨-1, st, [], [], false, some .alreadyInUse⟩
  else if (sb16_reset W reads).1 = -1 then
    ⟨-1, st, [], [], false, some .resetFailure⟩
  else
    match info_block with
    | none => ⟨-1, st, [], [], false, some .nullHeader⟩
    | some h =>
      match validateHeader h with
      | some e => ⟨-1, st, [], [], true, some e⟩
      | none =>
          ⟨toInt32 A, ⟨1, 1⟩,
           dma_init (dmaOffset A) (BUF_SIZE - 1) (dmaPage A),
           dsp_init h.sampleRate DSP_BCOMMAND DSP_BMODE (BUF_SIZE / BUF_DIM - 1),
           true, none⟩

/-- sb16_copy_status (lines 117-120): returns int_flag. -/
def sb16_copy_status (st : DevState) : Nat := st.int_flag

/-- sb16_shutdown (lines 131-141): runs sb16_reset ignoring its result, then
sets in_use = 0 and int_flag = 1 and returns 0. -/
def sb16_shutdown (W : Nat) (reads : Nat → Nat) (st : DevState) :
    Int × DevState :=
  have _ := sb16_reset W reads
  (0, ⟨0, 1⟩)

/-- The C logical negation !x used at line 303: 1 when x is zero, else 0. -/
def cNot (x : Nat) : Nat := if x = 0 then 1 else 0

/-- sb16_interrupt (lines 296-316), restricted to its effect on int_flag:
the single statement int_flag = !int_flag.  The remaining body only reads
the 16-bit acknowledgment port and signals end of interrupt; it performs no
other write to int_flag. -/
def sb16_interrupt (flag : Nat) : Nat := cNot flag

/- ------------------------------------------------------------------ -/
/- The sequences as the claims word them (refinement targets)          -/
/- ------------------------------------------------------------------ -/

/-- The DMA write sequence exactly as claim C4 states it: mask, clear
flip-flop, mode, base low, base high, PAGE, then a transfer count equal to
BUF_SIZE * 2 - 1 (one less than the total double-buffer length in bytes,
since one half holds BUF_SIZE bytes), then unmask.  This definition follows
the words of the claim, to be compared with dma_init taken from the
source. -/
def dmaClaimedWrites (buf_offset buf_page : Nat) : List (Port × Nat) :=
  [(Port.dmaMask, DMA_STOP_MASK),
   (Port.dmaClrPtr, 0),
   (Port.dmaMode, DMA_MODE),
   (Port.dmaBase, lo_byte buf_offset),
   (Port.dmaBase, hi_byte buf_offset),
   (Port.dmaPage, buf_page),
   (Port.dmaCount, lo_byte (BUF_SIZE * 2 - 1)),
   (Port.dmaCount, hi_byte (BUF_SIZE * 2 - 1)),
   (Port.dmaMask, DMA_START_MASK)]

/-- The number of samples per channel in one buffer half: BUF_SIZE bytes
per half, NCHANNELS channels, two bytes per 16-bit sample. -/
def samplesPerChannelHalf : Nat := BUF_SIZE / (NCHANNELS * 2)

/-- The number of 16-bit samples, both channels counted, in one buffer
half: BUF_SIZE bytes per half, two bytes per sample. -/
def samples16PerHalf : Nat := BUF_SIZE / 2

/-- The DSP byte sequence exactly as claim C5 states it: rate command, rate
high byte, rate low byte, block command, mode byte, then a block length
equal to one less than the number of samples per channel in one buffer
half.  This definition follows the words of the claim, to be compared with
dsp_init taken from the source. -/
def dspClaimedWrites (sample_rate : Nat) : List Nat :=
  [DSP_OUT_RATE_CMD,
   hi_byte sample_rate,
   lo_byte sample_rate,
   DSP_BCOMMAND,
   DSP_BMODE,
   lo_byte (samplesPerChannelHalf - 1),
   hi_byte (samplesPerChannelHalf - 1)]

/- ------------------------------------------------------------------ -/
/- Concrete inputs used by the closed theorems                         -/
/- ------------------------------------------------------------------ -/

/-- A well-formed header: container tag R, I, F, F, format code 1 (PCM),
2 channels, 16 bits per sample, sample rate 44100. -/
def goodHdr : Header := ⟨0x52, 0x49, 0x46, 0x46, 1, 2, 16, 44100⟩

/-- A device read stream that reports the ready byte on the first poll. -/
def readyReads : Nat → Nat := fun _ => SUCCESS_VAL

/-- A device read stream that never reports the ready byte. -/
def deadReads : Nat → Nat := fun _ => 0

/- ------------------------------------------------------------------ -/
/- Helper lemmas about the reset poll loop                             -/
/- ------------------------------------------------------------------ -/

theorem resetPoll_never (fuel : Nat) (reads : Nat → Nat)
    (h : ∀ n, reads n ≠ SUCCESS_VAL) :
    resetPoll fuel reads = (-1, fuel + 1) := by
  induction fuel generalizing reads with
  | zero => simp [resetPoll, h 0]
  | succ f ih =>
      simp [resetPoll, h 0, ih (fun n => reads (n + 1)) (fun n => h (n + 1))]

theorem resetPoll_first (fuel : Nat) (reads : Nat → Nat)
    (h : reads 0 = SUCCESS_VAL) :
    resetPoll fuel reads = ((fuel : Int), 1) := by
  cases fuel <;> simp [resetPoll, h]

theorem resetPoll_one_le_iff (fuel : Nat) (reads : Nat → Nat) :
    1 ≤ (resetPoll fuel reads).1 ↔ ∃ k, k < fuel ∧ reads k = SUCCESS_VAL := by
  induction fuel generalizing reads with
  | zero =>
      by_cases h : reads 0 = SUCCESS_VAL <;> simp [resetPoll, h]
  | succ f ih =>
      by_cases h : reads 0 = SUCCESS_VAL
      · rw [resetPoll_first (f + 1) reads h]
        refine iff_of_true ?_ ⟨0, Nat.succ_pos f, h⟩
        have h1 : (1 : Int) ≤ ((f + 1 : Nat) : Int) := by
          exact_mod_cast Nat.succ_le_succ (Nat.zero_le f)
        exact h1
      · simp only [resetPoll, h, if_false]
        rw [ih (fun n => reads (n + 1))]
        constructor
        · rintro ⟨k, hk, hs⟩
          exact ⟨k + 1, Nat.succ_lt_succ hk, hs⟩
        · rintro ⟨k, hk, hs⟩
          cases k with
          | zero => exact absurd hs h
          | succ k' => exact ⟨k', Nat.lt_of_succ_lt_succ hk, hs⟩

/- ------------------------------------------------------------------ -/
/- Claim theorems                                                      -/
/- ------------------------------------------------------------------ -/

/-- Claim C1 (code bug, evaluated at the failing input): against a device
whose read port never yields the ready byte, the poll loop exhausts its
budget and the trailing decrement makes sb16_reset return -2, not the
documented -1; the test at line 51 of sb16_init compares against -1 only,
so sb16_init does not fail: it programs the DMA engine and the codec, sets
the busy flag, and returns the buffer address instead of -1. -/
theorem init_misses_reset_failure :
    (∀ n, deadReads n ≠ SUCCESS_VAL)
    ∧ (sb16_reset 3 deadReads).1 = -2
    ∧ (sb16_init 3 deadReads initialState 131072 (some goodHdr)).ret = 131072
    ∧ (sb16_init 3 deadReads initialState 131072 (some goodHdr)).ret ≠ -1
    ∧ (sb16_init 3 deadReads initialState 131072 (some goodHdr)).dmaWrites ≠ []
    ∧ (sb16_init 3 deadReads initialState 131072 (some goodHdr)).dspWrites ≠ []
    ∧ (sb16_init 3 deadReads initialState 131072 (some goodHdr)).st.in_use = 1 :=
  ⟨fun _ => by simp [deadReads, SUCCESS_VAL], by decide, by decide, by decide,
   by decide, by decide, by decide⟩

/-- Claim C2, counterexample: with a poll budget of 3, a device that never
reports ready makes sb16_reset fail only after 4 polls, one more than the
configured budget, refuting the claim that the failure comes after exactly
the budget of polls. -/
theorem reset_budget_counterexample :
    (sb16_reset 3 deadReads).1 < 0
    ∧ (sb16_reset 3 deadReads).2 = 4
    ∧ (sb16_reset 3 deadReads).2 ≠ 3 := by decide

/-- Claim C2 (amended): for every poll budget W of at least 1, sb16_reset
returns a non-negative value on a first-poll ready device after exactly one
poll; against a device that never reports ready it returns a negative value
after exactly W + 1 polls (one initial poll plus the W retries of the
budget); and in general the return value is non-negative exactly when the
ready byte arrives among the first W polls. -/
theorem reset_budget_amended (W : Nat) (reads : Nat → Nat) (hW : 1 ≤ W) :
    (reads 0 = SUCCESS_VAL →
        0 ≤ (sb16_reset W reads).1 ∧ (sb16_reset W reads).2 = 1)
    ∧ ((∀ n, reads n ≠ SUCCESS_VAL) →
        (sb16_reset W reads).1 < 0 ∧ (sb16_reset W reads).2 = W + 1)
    ∧ (0 ≤ (sb16_reset W reads).1 ↔ ∃ k, k < W ∧ reads k = SUCCESS_VAL) := by
  refine ⟨?_, ?_, ?_⟩
  · intro h
    simp only [sb16_reset, resetPoll_first W reads h]
    refine ⟨by omega, by trivial⟩
  · intro h
    simp only [sb16_reset, resetPoll_never W reads h]
    refine ⟨by norm_num, by trivial⟩
  · simp only [sb16_reset]
    rw [← resetPoll_one_le_iff W reads]
    omega

/-- Witness for the amended claim C2, at budget 3 and a first-poll ready
device. -/
theorem reset_budget_amended_witness :
    0 ≤ (sb16_reset 3 readyReads).1 ∧ (sb16_reset 3 readyReads).2 = 1 :=
  (reset_budget_amended 3 readyReads (by norm_num)).1 rfl

/-- Claim C3, counterexample: a header whose container tag is wrong and
whose format code is also not 1 is rejected with the wrong-tag error, not
with the format error, refuting the claimed priority order in which the
format-code check comes first and the container-tag check last. -/
theorem header_priority_counterexample :
    wavCheckVal ⟨0, 0, 0, 0, 5, 2, 16, 100⟩ ≠ WAV_MAGIC
    ∧ (⟨0, 0, 0, 0, 5, 2, 16, 100⟩ : Header).formatCode ≠ 1
    ∧ validateHeader ⟨0, 0, 0, 0, 5, 2, 16, 100⟩ = some .notWav
    ∧ validateHeader ⟨0, 0, 0, 0, 5, 2, 16, 100⟩ ≠ some .unsupportedFormat := by
  decide

/-- Claim C3 (amended): header validation accepts exactly the headers whose
container tag matches WAV_MAGIC after byte-reversal, whose format code is 1,
whose channel count is 2 and whose bits-per-sample is 16, regardless of the
sample rate; the checks fire in the source order, container tag first, then
format code, then a combined channel-count and bit-depth check that shares a
single error. -/
theorem header_validation_amended (h : Header) :
    (validateHeader h = none ↔
      wavCheckVal h = WAV_MAGIC ∧ h.formatCode = 1
      ∧ h.nChannels = NCHANNELS ∧ h.bitsPerSample = C16BITS)
    ∧ (wavCheckVal h ≠ WAV_MAGIC → validateHeader h = some .notWav)
    ∧ (wavCheckVal h = WAV_MAGIC → h.formatCode ≠ 1 →
        validateHeader h = some .unsupportedFormat)
    ∧ (wavCheckVal h = WAV_MAGIC → h.formatCode = 1 →
        (h.nChannels ≠ NCHANNELS ∨ h.bitsPerSample ≠ C16BITS) →
        validateHeader h = some .notStereo16)
    ∧ (∀ r, validateHeader
        ⟨h.m0, h.m1, h.m2, h.m3, h.formatCode, h.nChannels, h.bitsPerSample, r⟩
        = validateHeader h) := by
  refine ⟨?_, ?_, ?_, ?_, ?_⟩
  · simp only [validateHeader]
    split_ifs with h1 h2 h3 <;> simp_all <;> tauto
  · intro h1; simp [validateHeader, h1]
  · intro h1 h2; simp [validateHeader, h1, h2]
  · intro h1 h2 h3; simp [validateHeader, h1, h2, h3]
  · intro r; simp [validateHeader, wavCheckVal]

/-- Witness for the amended claim C3, at the well-formed header. -/
theorem header_validation_amended_witness :
    validateHeader goodHdr = none
    ∧ validateHeader ⟨0x52, 0x49, 0x46, 0x46, 1, 2, 16, 8000⟩
      = validateHeader goodHdr := by
  have h := header_validation_amended goodHdr
  exact ⟨h.1.2 (by decide), h.2.2.2.2 8000⟩

/-- Claim C4, counterexample: on a successful initialization the DMA write
trace taken from the source differs from the sequence the claim states,
which puts the page write before the transfer count and programs a count of
BUF_SIZE * 2 - 1: the source writes the count (with value BUF_SIZE - 1)
before the page register. -/
theorem dma_sequence_counterexample :
    (sb16_init 3 readyReads initialState 131072 (some goodHdr)).err = none
    ∧ (sb16_init 3 readyReads initialState 131072 (some goodHdr)).dmaWrites
      ≠ dmaClaimedWrites (dmaOffset 131072) (dmaPage 131072) := by
  decide

/-- Claim C4 (amended): whenever sb16_init reaches the DMA stage (device
idle, reset result not -1, header valid) it performs exactly the source
sequence: stop mask, clear flip-flop, mode, base offset low then high,
transfer count low then high, page register, start mask; the transfer count
written is BUF_SIZE - 1, one less than the byte length of one buffer half,
which equals one less than the number of 16-bit words in the whole double
buffer. -/
theorem dma_sequence_amended (W : Nat) (reads : Nat → Nat) (st : DevState)
    (A : Nat) (h : Header) (hbusy : st.in_use = 0)
    (hreset : (sb16_reset W reads).1 ≠ -1)
    (hok : validateHeader h = none) :
    (sb16_init W reads st A (some h)).dmaWrites
      = [(Port.dmaMask, DMA_STOP_MASK),
         (Port.dmaClrPtr, 0),
         (Port.dmaMode, DMA_MODE),
         (Port.dmaBase, lo_byte (dmaOffset A)),
         (Port.dmaBase, hi_byte (dmaOffset A)),
         (Port.dmaCount, lo_byte (BUF_SIZE - 1)),
         (Port.dmaCount, hi_byte (BUF_SIZE - 1)),
         (Port.dmaPage, dmaPage A),
         (Port.dmaMask, DMA_START_MASK)]
    ∧ BUF_SIZE - 1 = BUF_DIM * BUF_SIZE / 2 - 1 := by
  refine ⟨?_, by decide⟩
  simp [sb16_init, hbusy, hreset, hok, dma_init]

/-- Witness for the amended claim C4, at a first-poll ready device, an idle
state, buffer address 131072 and the well-formed header. -/
theorem dma_sequence_amended_witness :
    (sb16_init 3 readyReads initialState 131072 (some goodHdr)).dmaWrites
      = [(Port.dmaMask, DMA_STOP_MASK),
         (Port.dmaClrPtr, 0),
         (Port.dmaMode, DMA_MODE),
         (Port.dmaBase, lo_byte (dmaOffset 131072)),
         (Port.dmaBase, hi_byte (dmaOffset 131072)),
         (Port.dmaCount, lo_byte (BUF_SIZE - 1)),
         (Port.dmaCount, hi_byte (BUF_SIZE - 1)),
         (Port.dmaPage, dmaPage 131072),
         (Port.dmaMask, DMA_START_MASK)]
    ∧ BUF_SIZE - 1 = BUF_DIM * BUF_SIZE / 2 - 1 :=
  dma_sequence_amended 3 readyReads initialState 131072 goodHdr
    (by decide) (by decide) (by decide)

/-- Claim C5, counterexample: on a successful initialization the DSP byte
trace taken from the source differs from the sequence the claim states,
whose block length would be one less than the number of samples per channel
in one buffer half (8191): the source writes a block length of
BUF_SIZE / BUF_DIM - 1 = 16383, one less than the number of 16-bit samples
in one buffer half counted across both channels. -/
theorem dsp_sequence_counterexample :
    (sb16_init 3 readyReads initialState 131072 (some goodHdr)).err = none
    ∧ (sb16_init 3 readyReads initialState 131072 (some goodHdr)).dspWrites
      ≠ dspClaimedWrites goodHdr.sampleRate
    ∧ samplesPerChannelHalf - 1 ≠ BUF_SIZE / BUF_DIM - 1 := by
  decide

/-- Claim C5 (amended): whenever sb16_init reaches the codec stage it writes,
in strict order, the output-rate command opcode, the sample-rate high byte,
the sample-rate low byte, the output command opcode, the mode byte, the
block-length low byte and the block-length high byte; the block length is
BUF_SIZE / BUF_DIM - 1, one less than the number of 16-bit samples in one
buffer half (both channels counted), not one less than the per-channel
sample count. -/
theorem dsp_sequence_amended (W : Nat) (reads : Nat → Nat) (st : DevState)
    (A : Nat) (h : Header) (hbusy : st.in_use = 0)
    (hreset : (sb16_reset W reads).1 ≠ -1)
    (hok : validateHeader h = none) :
    (sb16_init W reads st A (some h)).dspWrites
      = [DSP_OUT_RATE_CMD,
         hi_byte h.sampleRate,
         lo_byte h.sampleRate,
         DSP_BCOMMAND,
         DSP_BMODE,
         lo_byte (samples16PerHalf - 1),
         hi_byte (samples16PerHalf - 1)]
    ∧ BUF_SIZE / BUF_DIM - 1 = samples16PerHalf - 1 := by
  refine ⟨?_, by decide⟩
  have hval : BUF_SIZE / BUF_DIM - 1 = samples16PerHalf - 1 := by decide
  simp [sb16_init, hbusy, hreset, hok, dsp_init, hval]

/-- Witness for the amended claim C5, at a first-poll ready device, an idle
state, buffer address 131072 and the well-formed header. -/
theorem dsp_sequence_amended_witness :
    (sb16_init 3 readyReads initialState 131072 (some goodHdr)).dspWrites
      = [DSP_OUT_RATE_CMD,
         hi_byte goodHdr.sampleRate,
         lo_byte goodHdr.sampleRate,
         DSP_BCOMMAND,
         DSP_BMODE,
         lo_byte (samples16PerHalf - 1),
         hi_byte (samples16PerHalf - 1)]
    ∧ BUF_SIZE / BUF_DIM - 1 = samples16PerHalf - 1 :=
  dsp_sequence_amended 3 readyReads initialState 131072 goodHdr
    (by decide) (by decide) (by decide)

/-- The value of int_flag after N interrupt invocations from baseline. -/
theorem intFlag_iter (N : Nat) :
    Nat.iterate sb16_interrupt N int_flag_baseline
      = if N % 2 = 0 then 1 else 0 := by
  induction N with
  | zero => simp [int_flag_baseline]
  | succ n ih =>
      rcases Nat.mod_two_eq_zero_or_one n with h | h
      · have h1 : (n + 1) % 2 = 1 := by omega
        simp [Function.iterate_succ_apply', ih, h, h1, sb16_interrupt, cNot]
      · have h1 : (n + 1) % 2 = 0 := by omega
        simp [Function.iterate_succ_apply', ih, h, h1, sb16_interrupt, cNot]

/-- Claim C6 (confirmed): every invocation of the interrupt handler changes
int_flag (the model performs the single toggle of line 303 and no other
write to the flag), and after N consecutive invocations starting from the
baseline the flag equals the baseline exactly when N is even. -/
theorem interrupt_toggle_alternates :
    (∀ x, sb16_interrupt x ≠ x)
    ∧ ∀ N, (Nat.iterate sb16_interrupt N int_flag_baseline = int_flag_baseline
        ↔ N % 2 = 0) := by
  constructor
  · intro x
    unfold sb16_interrupt cNot
    split_ifs with h <;> omega
  · intro N
    rw [intFlag_iter N]
    rcases Nat.mod_two_eq_zero_or_one N with h | h <;>
      simp [h, int_flag_baseline]

/-- Witness for claim C6, at one invocation and at four invocations. -/
theorem interrupt_toggle_alternates_witness :
    sb16_interrupt 1 ≠ 1
    ∧ (Nat.iterate sb16_interrupt 4 int_flag_baseline = int_flag_baseline
        ↔ 4 % 2 = 0) :=
  ⟨interrupt_toggle_alternates.1 1, interrupt_toggle_alternates.2 4⟩

/-- Claim C7 (confirmed): when the busy flag is set, sb16_init returns -1
with the already-in-use error; and on every error exit of sb16_init the
global flags are left exactly as they were, no DMA port is written and no
byte is sent to the DSP. -/
theorem init_error_paths_preserve_state (W : Nat) (reads : Nat → Nat)
    (st : DevState) (A : Nat) (info_block : Option Header) :
    (st.in_use ≠ 0 →
        (sb16_init W reads st A info_block).ret = -1
        ∧ (sb16_init W reads st A info_block).err = some .alreadyInUse)
    ∧ ∀ e, (sb16_init W reads st A info_block).err = some e →
        (sb16_init W reads st A info_block).ret = -1
        ∧ (sb16_init W reads st A info_block).st = st
        ∧ (sb16_init W reads st A info_block).dmaWrites = []
        ∧ (sb16_init W reads st A info_block).dspWrites = [] := by
  constructor
  · intro hbusy
    simp [sb16_init, hbusy]
  · intro e he
    by_cases h1 : st.in_use = 0
    · by_cases h2 : (sb16_reset W reads).1 = -1
      · simp [sb16_init, h1, h2]
      · cases info_block with
        | none => simp [sb16_init, h1, h2]
        | some hd =>
            cases hv : validateHeader hd with
            | some e2 => simp [sb16_init, h1, h2, hv]
            | none => simp [sb16_init, h1, h2, hv] at he
    · simp [sb16_init, h1]

/-- Witness for claim C7: a second call while busy fails with the
already-in-use error and leaves the state unchanged. -/
theorem init_error_paths_preserve_state_witness :
    (sb16_init 3 readyReads ⟨1, 1⟩ 131072 (some goodHdr)).ret = -1
    ∧ (sb16_init 3 readyReads ⟨1, 1⟩ 131072 (some goodHdr)).err
      = some .alreadyInUse
    ∧ (sb16_init 3 readyReads ⟨1, 1⟩ 131072 (some goodHdr)).st = ⟨1, 1⟩ := by
  have h := init_error_paths_preserve_state 3 readyReads ⟨1, 1⟩ 131072
    (some goodHdr)
  have hb : (⟨1, 1⟩ : DevState).in_use ≠ 0 := by decide
  exact ⟨(h.1 hb).1, (h.1 hb).2, (h.2 .alreadyInUse (h.1 hb).2).2.1⟩

/-- Claim C8 (confirmed): sb16_shutdown always returns 0 and always leaves
in_use at 0 and int_flag at the baseline, whatever the prior state and
whatever the device answers during the ignored reset handshake; hence a
second consecutive call yields the same return value and the same final
state, and the call is safe when no session is active. -/
theorem shutdown_total_idempotent (W : Nat) (reads : Nat → Nat)
    (st : DevState) :
    sb16_shutdown W reads st = (0, ⟨0, 1⟩)
    ∧ (sb16_shutdown W reads st).2.in_use = 0
    ∧ (sb16_shutdown W reads st).2.int_flag = int_flag_baseline
    ∧ sb16_shutdown W reads (sb16_shutdown W reads st).2
      = sb16_shutdown W reads st := by
  simp [sb16_shutdown, int_flag_baseline]

/-- Claim C9, counterexample: the addresses 2 and 3 are distinct but are
mapped to the same offset and the same page, because the shift by one drops
the lowest address bit; so offset and page together cannot reconstruct
every address in the addressable range. -/
theorem dma_placement_counterexample :
    dmaOffset 2 = dmaOffset 3
    ∧ dmaPage 2 = dmaPage 3
    ∧ (2 : Nat) ≠ 3 := by decide

/-- Claim C9 (amended): for every address A in the 24-bit addressable range
the computed offset is (A >> 1) mod 65536 and the computed page is A >> 16,
exactly as claimed; and for every EVEN such address the pair reconstructs
A as 131072 * (page / 2) + 2 * offset.  Odd addresses are not recoverable,
as the counterexample shows. -/
theorem dma_placement_amended (A : Nat) (h24 : A < 16777216) :
    dmaOffset A = A / 2 % 65536
    ∧ dmaPage A = A / 65536
    ∧ (A % 2 = 0 → 131072 * (dmaPage A / 2) + 2 * dmaOffset A = A) := by
  simp only [dmaOffset, dmaPage, TWOTO16]
  refine ⟨by omega, by omega, fun h2 => by omega⟩

/-- Witness for the amended claim C9, at the even address 144470. -/
theorem dma_placement_amended_witness :
    dmaOffset 144470 = 144470 / 2 % 65536
    ∧ dmaPage 144470 = 144470 / 65536
    ∧ 131072 * (dmaPage 144470 / 2) + 2 * dmaOffset 144470 = 144470 := by
  have h := dma_placement_amended 144470 (by norm_num)
  exact ⟨h.1, h.2.1, h.2.2 (by norm_num)⟩

/-- Claim C10 (confirmed): called with a null header pointer, sb16_init
returns -1 without reading any header byte, without writing any DMA port or
DSP byte, and with both global flags left exactly as they were, whatever
the device state and whatever the reset handshake returns. -/
theorem init_null_header_rejected (W : Nat) (reads : Nat → Nat)
    (st : DevState) (A : Nat) :
    (sb16_init W reads st A none).ret = -1
    ∧ (sb16_init W reads st A none).dmaWrites = []
    ∧ (sb16_init W reads st A none).dspWrites = []
    ∧ (sb16_init W reads st A none).headerAccessed = false
    ∧ (sb16_init W reads st A none).st = st := by
  by_cases h1 : st.in_use = 0
  · by_cases h2 : (sb16_reset W reads).1 = -1
    · simp [sb16_init, h1, h2]
    · simp [sb16_init, h1, h2]
  · simp [sb16_init, h1]
